import Mathlib

/-!
A shallow embedding of the search/pagination/download engine of the
NetEase music downloader script (网易云音乐爬取脚本.py), together with
theorems settling the specification claims about it.

Conventions of the embedding:
* Python strings are Lean `String`s; Python unbounded integers are `Int`
  (or `Nat` where the source value is always a count).
* The network is an oracle: a request's outcome (final redirected URL,
  status code, headers, body) or a raised `requests` exception is an
  explicit input of the function that performs the request.
* The filesystem is a pair of lists: the set of existing directories and
  the set of existing file paths; `os.path.exists` is list membership and
  writing a file conses its path.
* Tkinter widgets that hold engine state (the offset entry, the page
  label, the enabled state of the prev/next buttons, the download-log
  text box) are fields of an explicit state record; `root.after` UI
  callbacks of a worker are modelled as an ordered event trace.
-/

namespace NSD

/-! ### generate_filename (source lines 604-620) -/

/-- The characters the source's `clean_filename` replaces: `<>:"/\|?*`. -/
def illegalChars : List Char := ['<', '>', ':', '\"', '/', '\\', '|', '?', '*']

/-- One Python `text.replace(char, '_')` step. -/
def replaceAllChar (c : Char) (s : List Char) : List Char :=
  s.map fun x => if x = c then '_' else x

/-- Python `str.strip()`: drop leading and trailing whitespace. -/
def pyStrip (s : List Char) : List Char :=
  ((s.dropWhile Char.isWhitespace).reverse.dropWhile Char.isWhitespace).reverse

/-- The inner `clean_filename` of `generate_filename`: replace each
illegal character with an underscore (one sequential `replace` per
character, as the source loops over `illegal_chars`), then strip. -/
def clean_filename (s : String) : String :=
  ⟨pyStrip (illegalChars.foldl (fun acc c => replaceAllChar c acc) s.data)⟩

/-- Spec-side description of the character replacement: a single pointwise
map sending every illegal character to an underscore.  Used to compare the
source's sequential-replace loop with the specification's wording. -/
def sanitizeChar (x : Char) : Char :=
  if x ∈ illegalChars then '_' else x

/-- `generate_filename(song_name, artist)` under a naming format:
the source returns `"{name}.mp3"` when the format equals `"歌曲名"` and
`"{name} - {artist}.mp3"` otherwise. -/
def generate_filename (naming_format song_name artist : String) : String :=
  if naming_format = "歌曲名" then clean_filename song_name ++ ".mp3"
  else clean_filename song_name ++ " - " ++ clean_filename artist ++ ".mp3"

/-! ### The HTTP oracle -/

/-- The "track unavailable" sentinel page checked by the source. -/
def sentinelUrl : String := "https://music.163.com/#/404"

/-- The download link synthesized from a song id (source line 587/744). -/
def synthesized_download_link (song_id : Nat) : String :=
  "http://music.163.com/song/media/outer/url?id=" ++ Nat.repr song_id ++ ".mp3"

/-- What the `requests` library hands back for one request, after
following redirects: the final URL, the status code, the body and the two
headers the script reads. -/
structure HttpResponse where
  status : Nat
  url : String
  content : List Nat
  contentLength : Option String
  contentType : Option String
deriving DecidableEq

/-- Outcome of one `requests.get`/`requests.head` call: a response, a
`requests.exceptions.RequestException`, or any other raised exception. -/
inductive RequestOutcome where
  | success (r : HttpResponse)
  | requestException (msg : String)
  | otherException (msg : String)
deriving DecidableEq

/-! ### Filesystem model and collision resolution (source lines 757-781) -/

/-- The parts of the filesystem the engine observes: which directories
and which file paths exist. -/
structure FS where
  dirs : List String
  files : List String
deriving DecidableEq

/-- `os.path.join` with a fixed separator. -/
def joinPath (d f : String) : String := d ++ "/" ++ f

/-- `os.makedirs(d)` preceded by the `os.path.exists` guard of line 758. -/
def ensure_dir (fs : FS) (d : String) : FS :=
  if d ∈ fs.dirs then fs else { fs with dirs := d :: fs.dirs }

/-- Index of the last occurrence of `c`, as in Python `str.rfind`. -/
def rfindAux (c : Char) : List Char → Nat → Option Nat
  | [], _ => none
  | x :: xs, i =>
    match rfindAux c xs (i + 1) with
    | some j => some j
    | none => if x = c then some i else none

/-- `os.path.splitext` restricted to bare filenames: split at the last
dot unless every character before it is itself a dot. -/
def splitext (f : String) : String × String :=
  match rfindAux '.' f.data 0 with
  | none => (f, "")
  | some i =>
    if (f.data.take i).all (· = '.') then (f, "")
    else (⟨f.data.take i⟩, ⟨f.data.drop i⟩)

/-- The disambiguated filename `"{base} ({k}){ext}"` built by the
collision loop. -/
def numbered_candidate (base ext : String) (k : Nat) : String :=
  base ++ " (" ++ Nat.repr k ++ ")" ++ ext

/-- The `while os.path.exists(full_path)` loop of lines 771-776.  Each
iteration re-derives `base`/`ext` from the original filename and tries
`"{base} ({counter}){ext}"` with the counter incremented.  The loop is
given explicit fuel; `resolve_download_path` supplies `files.length + 1`,
which is enough to reach a free name (proved below). -/
def resolve_collision_loop (files : List String) (dir base ext : String) :
    Nat → Nat → String → String
  | 0, _, cur => cur
  | fuel + 1, counter, cur =>
    if cur ∈ files then
      resolve_collision_loop files dir base ext fuel (counter + 1)
        (joinPath dir (numbered_candidate base ext counter))
    else cur

/-- Resolution of the final download path for a candidate filename over
the directory's current contents (lines 768-776). -/
def resolve_download_path (files : List String) (dir filename : String) : String :=
  resolve_collision_loop files dir (splitext filename).1 (splitext filename).2
    (files.length + 1) 1 (joinPath dir filename)

/-- Repeated resolution: resolve a path, write the file, resolve again —
`n` times.  Returns the produced paths, newest policy first applied. -/
def iterate_resolutions (dir filename : String) (files : List String) : Nat → List String
  | 0 => []
  | n + 1 =>
    let p := resolve_download_path files dir filename
    p :: iterate_resolutions dir filename (p :: files) n

/-! ### fetch_and_download_song (source lines 739-786) -/

/-- Python truthiness of an optional-string argument: `None` and the
empty string are falsy. -/
def truthyOpt (o : Option String) : Option String :=
  match o with
  | none => none
  | some s => if s = "" then none else some s

/-- The long-lived settings the download path depends on. -/
structure DownloadEnv where
  naming_format : String
  download_dir : String
deriving DecidableEq

/-- The URL the GET of `fetch_and_download_song` actually requests: the
provided link if truthy, else the one synthesized from the id. -/
def requested_link (song_id : Nat) (download_link : Option String) : String :=
  match truthyOpt download_link with
  | some l => l
  | none => synthesized_download_link song_id

/-- `fetch_and_download_song(song_id, song_name, artist, download_link)`.
`net` is the network oracle: the outcome of `requests.get` on the link
actually requested.  Returns the Python pair (success flag, path or error
message) together with the filesystem after the call. -/
def fetch_and_download_song (env : DownloadEnv) (fs : FS) (song_id : Nat)
    (song_name artist download_link : Option String)
    (net : String → RequestOutcome) : (Bool × String) × FS :=
  match net (requested_link song_id download_link) with
  | .requestException e => ((false, "网络请求失败: " ++ e), fs)
  | .otherException e => ((false, "下载失败: " ++ e), fs)
  | .success r =>
    if r.url = sentinelUrl then
      ((false, "无法下载歌曲，请检查ID是否正确"), fs)
    else if r.status ≠ 200 then
      ((false, "下载失败，状态码: " ++ Nat.repr r.status), fs)
    else
      let fs1 := ensure_dir fs env.download_dir
      let filename :=
        match truthyOpt song_name, truthyOpt artist with
        | some n, some a => generate_filename env.naming_format n a
        | _, _ => "歌曲_" ++ Nat.repr song_id ++ ".mp3"
      let path := resolve_download_path fs1.files env.download_dir filename
      ((true, path), { fs1 with files := path :: fs1.files })

/-! ### test_download_link (source lines 825-865) -/

/-- Classification displayed by the link test. -/
inductive LinkStatus where
  | valid (size ctype : String)
  | unavailable
  | failedStatus (code : Nat)
  | failedExn (msg : String)
deriving DecidableEq

/-- `test_download_link` on the outcome of the HEAD request: the source
checks `status_code == 200` first, then the sentinel URL, then reports
the status code; any raised exception is the final branch. -/
def test_download_link (net : RequestOutcome) : LinkStatus :=
  match net with
  | .requestException e => .failedExn e
  | .otherException e => .failedExn e
  | .success r =>
    if r.status = 200 then
      .valid (r.contentLength.getD "未知") (r.contentType.getD "未知")
    else if r.url = sentinelUrl then .unavailable
    else .failedStatus r.status

/-! ### Batch download (source lines 891-941) -/

/-- The fields of one `song_details` entry that the batch loop reads. -/
structure SongInfo where
  song_id : Nat
  name : String
  artist_str : String
  download_link : String
deriving DecidableEq

/-- One UI callback scheduled (via `root.after`) by the batch worker, in
order: a status-bar progress update "批量下载中... i/total", a download-log
line, the final status bar text, and the closing dialog. -/
inductive BatchEvent where
  | statusUpdate (done total : Nat)
  | logEntry (line : String)
  | finalStatus (succ fail : Nat)
  | dialogInfo
  | dialogWarning
deriving DecidableEq

/-- The download-log line the batch writes for one track, from the
track's fields and the (success flag, path-or-error) result. -/
def batch_log_line (item : SongInfo × Bool × String) : String :=
  if item.2.1 then "✅ 下载成功: " ++ item.1.name ++ " - " ++ item.1.artist_str
  else "❌ 下载失败: " ++ item.1.name ++ " - " ++ item.1.artist_str ++
    " (" ++ item.2.2 ++ ")"

/-- The closing summary line appended to the download log. -/
def batch_summary_line (total succ fail : Nat) : String :=
  "批量下载完成: 共 " ++ Nat.repr total ++ " 首，成功 " ++ Nat.repr succ ++
    " 首，失败 " ++ Nat.repr fail ++ " 首"

/-- The `for i, song_info in enumerate(songs_info)` loop with its two
mutable counters.  Each item is a track paired with the simulated outcome
of `fetch_and_download_song` for it. -/
def batch_loop (total : Nat) :
    List (SongInfo × Bool × String) → Nat → Nat → Nat → Nat × Nat × List BatchEvent
  | [], _, s, f => (s, f, [])
  | item :: rest, i, s, f =>
    let next :=
      if item.2.1 then batch_loop total rest (i + 1) (s + 1) f
      else batch_loop total rest (i + 1) s (f + 1)
    (next.1, next.2.1,
      BatchEvent.statusUpdate (i + 1) total ::
        BatchEvent.logEntry (batch_log_line item) :: next.2.2)

/-- Result of `_do_batch_download`: the two counters and the ordered
trace of UI callbacks. -/
structure BatchOutcome where
  success_count : Nat
  fail_count : Nat
  events : List BatchEvent
deriving DecidableEq

/-- `_do_batch_download(songs_info)` over simulated per-track outcomes. -/
def do_batch_download (items : List (SongInfo × Bool × String)) : BatchOutcome :=
  let total := items.length
  let r := batch_loop total items 0 0 0
  { success_count := r.1
    fail_count := r.2.1
    events :=
      BatchEvent.statusUpdate 0 total :: r.2.2 ++
        [BatchEvent.finalStatus r.1 r.2.1,
         BatchEvent.logEntry (batch_summary_line total r.1 r.2.1),
         if r.2.1 = 0 then BatchEvent.dialogInfo else BatchEvent.dialogWarning] }

/-! ### Decimal strings -/

/-- Decode one decimal digit character. -/
def decDigit (c : Char) : Nat :=
  if c = '0' then 0 else if c = '1' then 1 else if c = '2' then 2
  else if c = '3' then 3 else if c = '4' then 4 else if c = '5' then 5
  else if c = '6' then 6 else if c = '7' then 7 else if c = '8' then 8
  else if c = '9' then 9 else 0

/-- Fold a digit string onto an accumulator, most significant first.
Used below as a verified decoder for `Nat.repr`. -/
def evalDigits (v : Nat) (l : List Char) : Nat :=
  l.foldl (fun a c => a * 10 + decDigit c) v

/-- Parse a non-empty all-digit character list. -/
def parseNatDigits (l : List Char) : Option Nat :=
  if l = [] then none
  else if l.all (fun c => c.isDigit) then some (evalDigits 0 l)
  else none

/-- Python `int(s)` on an already-stripped string: an optional sign
followed by at least one digit; anything else raises `ValueError`,
modelled as `none`. -/
def pyInt? (s : String) : Option Int :=
  match s.data with
  | [] => none
  | c :: rest =>
    if c = '-' then (parseNatDigits rest).map (fun m => -(m : Int))
    else if c = '+' then (parseNatDigits rest).map (fun m => (m : Int))
    else (parseNatDigits (c :: rest)).map (fun m => (m : Int))

/-! ### UI / pagination state (source lines 666-671, 1217-1292) -/

/-- The engine-relevant application state: the three pagination
variables, the widget states they drive, and the download-log text box
(as its list of lines). -/
structure AppState where
  current_keywords : String
  current_offset : Int
  current_limit : Int
  prev_enabled : Bool
  next_enabled : Bool
  page_label : String
  status_label : String
  download_log : List String
deriving DecidableEq

/-- One `_do_search(keywords, offset, limit)` issued to the server. -/
structure SearchReq where
  keywords : String
  offset : Int
  limit : Int
deriving DecidableEq

/-- State after `__init__`: offset 0, limit 20, both page buttons
disabled, empty download log. -/
def initState : AppState :=
  { current_keywords := ""
    current_offset := 0
    current_limit := 20
    prev_enabled := false
    next_enabled := false
    page_label := "偏移量: 0 | 总数: 0"
    status_label := "就绪"
    download_log := [] }

/-- `prev_page` (lines 1217-1225): a guarded no-op at offset ≤ 0,
otherwise clamp with `max(0, offset - limit)` and re-issue the search. -/
def prev_page (st : AppState) : AppState × Option SearchReq :=
  if st.current_offset ≤ 0 then (st, none)
  else
    ({ st with current_offset := max 0 (st.current_offset - st.current_limit) },
      some ⟨st.current_keywords, max 0 (st.current_offset - st.current_limit),
        st.current_limit⟩)

/-- `next_page` (lines 1227-1232): unconditionally advance by limit and
re-issue the search (the guard lives in the button's enabled state). -/
def next_page (st : AppState) : AppState × Option SearchReq :=
  ({ st with current_offset := st.current_offset + st.current_limit },
    some ⟨st.current_keywords, st.current_offset + st.current_limit,
      st.current_limit⟩)

/-- `goto_offset` (lines 1234-1250) on the text of the jump entry.
The third component records whether the warning dialog was shown: an
unparsable entry or a negative offset raises `ValueError`, which the
handler reports without touching the state or searching. -/
def goto_offset (st : AppState) (input : String) : AppState × Option SearchReq × Bool :=
  if pyStrip input.data = [] then (st, none, false)
  else
    match pyInt? ⟨pyStrip input.data⟩ with
    | none => (st, none, true)
    | some n =>
      if n < 0 then (st, none, true)
      else
        ({ st with current_offset := n },
          some ⟨st.current_keywords, n, st.current_limit⟩, false)

/-- `reset_search` (lines 1252-1292): clear keyword and offset, reset the
page label and button states, and clear the three text boxes — including
the download log. -/
def reset_search (st : AppState) : AppState :=
  { current_keywords := ""
    current_offset := 0
    current_limit := st.current_limit
    prev_enabled := false
    next_enabled := false
    page_label := "偏移量: 0 | 总数: 0"
    status_label := "就绪"
    download_log := [] }

/-- The pagination effects of `display_results` (lines 622-682) on a
result page with `numSongs` songs and a reported `songCount`: with no
songs the function returns early; otherwise it rewrites the page label
and recomputes both page buttons' enabled states. -/
def display_results (st : AppState) (numSongs songCount : Nat) : AppState :=
  if numSongs = 0 then st
  else
    { st with
      page_label :=
        "偏移量: " ++ toString st.current_offset ++ " | 总数: " ++ Nat.repr songCount
      prev_enabled := decide (0 < st.current_offset)
      next_enabled := decide (st.current_limit ≤ (numSongs : Int)) }

/-- Clicking the next-page button: a disabled button does not fire. -/
def click_next (st : AppState) : AppState × Option SearchReq :=
  if st.next_enabled then next_page st else (st, none)

/-- Clicking the prev-page button: a disabled button does not fire. -/
def click_prev (st : AppState) : AppState × Option SearchReq :=
  if st.prev_enabled then prev_page st else (st, none)

/-- The user-reachable pagination operations, plus arrival of a search
result page (which is what re-enables the buttons). -/
inductive PageOp where
  | next
  | prev
  | goto (input : String)
  | reset
  | display (numSongs songCount : Nat)
deriving DecidableEq

/-- One step of the pagination state machine. -/
def pageStep (st : AppState) (op : PageOp) : AppState :=
  match op with
  | .next => (click_next st).1
  | .prev => (click_prev st).1
  | .goto s => (goto_offset st s).1
  | .reset => reset_search st
  | .display n c => display_results st n c

/-- Run a finite sequence of pagination operations. -/
def run_ops (st : AppState) (ops : List PageOp) : AppState :=
  ops.foldl pageStep st

/-! ### Settings (source lines 70-82) -/

/-- The two persisted preferences. -/
structure Settings where
  naming_format : String
  download_dir : String
deriving DecidableEq

/-- What reading `settings.json` can observe: no file, a file whose
`json.load` (or dictionary access) raises, or a parsed document with each
key optionally present. -/
inductive SettingsFile where
  | missing
  | unparsable
  | parsed (naming_format download_dir : Option String)
deriving DecidableEq

/-- `load_settings`: the fields start at the defaults set in `__init__`;
a missing file leaves them, an exception restores them, and a parsed
document supplies each key with `dict.get`'s default. -/
def load_settings (f : SettingsFile) : Settings :=
  match f with
  | .missing => ⟨"歌曲名-歌手", "downloads"⟩
  | .unparsable => ⟨"歌曲名-歌手", "downloads"⟩
  | .parsed nf dd => ⟨nf.getD "歌曲名-歌手", dd.getD "downloads"⟩

/-! ### Download log (source lines 506-513, 867-941) -/

/-- `add_download_log(message)`: append one timestamped line to the
download-log text box. -/
def add_download_log (ts msg : String) (st : AppState) : AppState :=
  { st with download_log := st.download_log ++ ["[" ++ ts ++ "] " ++ msg] }

/-- The download-log effect of `_do_download` (lines 867-889) given the
result of `fetch_and_download_song`: exactly one line is appended. -/
def do_download_log (ts : String) (st : AppState) (song_name artist : String)
    (outcome : Bool × String) : AppState :=
  if outcome.1 then
    add_download_log ts ("✅ 下载成功: " ++ song_name ++ " - " ++ artist) st
  else
    add_download_log ts ("❌ 下载失败: " ++ song_name ++ " - " ++ outcome.2) st

/-- Replaying the batch worker's UI callbacks against the state: log
entries append to the download log, status updates rewrite the status
bar, dialogs touch nothing. -/
def apply_batch_events (ts : String) (st : AppState) (evs : List BatchEvent) : AppState :=
  evs.foldl
    (fun s e =>
      match e with
      | .logEntry line => add_download_log ts line s
      | .statusUpdate i t =>
        { s with status_label :=
            "批量下载中... " ++ Nat.repr i ++ "/" ++ Nat.repr t }
      | .finalStatus su fa =>
        { s with status_label :=
            "批量下载完成: 成功 " ++ Nat.repr su ++ " 首，失败 " ++ Nat.repr fa ++ " 首" }
      | .dialogInfo => s
      | .dialogWarning => s)
    st

/-- A whole batch download as observed from the application state. -/
def run_batch (ts : String) (st : AppState) (items : List (SongInfo × Bool × String)) :
    AppState :=
  apply_batch_events ts st (do_batch_download items).events

/-! ## Theorems -/

/-- Folding single-character replacements over a list of characters is
the pointwise map that sends each listed character to an underscore
(an underscore, once written, is never rewritten to anything else). -/
theorem foldl_replaceAllChar (cs : List Char) : ∀ s : List Char,
    cs.foldl (fun acc c => replaceAllChar c acc) s =
      s.map (fun x => if x ∈ cs then '_' else x) := by
  induction cs with
  | nil =>
    intro s
    simp
  | cons c cs ih =>
    intro s
    rw [List.foldl_cons, ih (replaceAllChar c s)]
    unfold replaceAllChar
    rw [List.map_map]
    apply List.map_congr_left
    intro x _
    by_cases hxc : x = c
    · subst hxc
      simp
    · by_cases hxcs : x ∈ cs <;> simp [hxc, hxcs, Function.comp]

/-- Characters surviving `pyStrip` were in the input. -/
theorem mem_pyStrip {c : Char} {l : List Char} (h : c ∈ pyStrip l) : c ∈ l := by
  unfold pyStrip at h
  rw [List.mem_reverse] at h
  have h1 := (List.dropWhile_sublist (l := (l.dropWhile Char.isWhitespace).reverse)
    (p := Char.isWhitespace)).subset h
  rw [List.mem_reverse] at h1
  exact (List.dropWhile_sublist (l := l) (p := Char.isWhitespace)).subset h1

/-- The cleaned filename never contains an illegal character. -/
theorem illegal_not_mem_clean (c : Char) (hc : c ∈ illegalChars) (s : String) :
    c ∉ (clean_filename s).data := by
  intro hmem
  have hmem' : c ∈ illegalChars.foldl (fun acc c => replaceAllChar c acc) s.data :=
    mem_pyStrip hmem
  rw [foldl_replaceAllChar] at hmem'
  rw [List.mem_map] at hmem'
  obtain ⟨x, _, hx⟩ := hmem'
  by_cases hxi : x ∈ illegalChars
  · rw [if_pos hxi] at hx
    subst hx
    revert hc
    decide
  · rw [if_neg hxi] at hx
    subst hx
    exact hxi hc

/-- C5: `generate_filename` replaces every occurrence of the characters
`< > : " / \ | ? *` in both inputs with an underscore and strips
whitespace; under format "歌曲名" the base filename is
"{name}.mp3" and under format "歌曲名-歌手" it is
"{name} - {artist}.mp3"; on name "A/B:C" and artist "X*Y" the latter
format yields "A_B_C - X_Y.mp3"; and no forbidden character survives
into the result. -/
theorem C5_generate_filename_sanitization :
    (∀ s : String, clean_filename s = ⟨pyStrip (s.data.map sanitizeChar)⟩) ∧
    (∀ song_name artist : String,
      generate_filename "歌曲名" song_name artist =
        clean_filename song_name ++ ".mp3") ∧
    (∀ song_name artist : String,
      generate_filename "歌曲名-歌手" song_name artist =
        clean_filename song_name ++ " - " ++ clean_filename artist ++ ".mp3") ∧
    generate_filename "歌曲名-歌手" "A/B:C" "X*Y" = "A_B_C - X_Y.mp3" ∧
    (∀ (fmt song_name artist : String) (c : Char), c ∈ illegalChars →
      c ∉ (generate_filename fmt song_name artist).data) := by
  refine ⟨?_, ?_, ?_, by decide, ?_⟩
  · intro s
    unfold clean_filename sanitizeChar
    rw [foldl_replaceAllChar]
  · intro song_name artist
    unfold generate_filename
    rw [if_pos rfl]
  · intro song_name artist
    unfold generate_filename
    rw [if_neg (by decide)]
  · intro fmt song_name artist c hc
    unfold generate_filename
    have hdotAll : ∀ x ∈ illegalChars, x ∉ (".mp3" : String).data := by decide
    have hdashAll : ∀ x ∈ illegalChars, x ∉ (" - " : String).data := by decide
    have hdot : c ∉ (".mp3" : String).data := hdotAll c hc
    have hdash : c ∉ (" - " : String).data := hdashAll c hc
    split
    · simp only [String.data_append, List.mem_append]
      rintro (h | h)
      · exact illegal_not_mem_clean c hc song_name h
      · exact hdot h
    · simp only [String.data_append, List.mem_append]
      rintro (((h | h) | h) | h)
      · exact illegal_not_mem_clean c hc song_name h
      · exact hdash h
      · exact illegal_not_mem_clean c hc artist h
      · exact hdot h

/-- Witness for C5 at concrete inputs. -/
theorem C5_witness :
    ('/' ∈ illegalChars → '/' ∉ (generate_filename "歌曲名" "a/b" "x").data) ∧
    ('/' ∈ illegalChars) :=
  ⟨C5_generate_filename_sanitization.2.2.2.2 "歌曲名" "a/b" "x" '/', by decide⟩

/-- C9: `load_settings` silently falls back to the defaults
naming_format = "歌曲名-歌手" and download_dir = "downloads" when the
settings file is missing or unparsable, and an absent key takes its
default when the file parses. -/
theorem C9_load_settings_defaults :
    load_settings .missing = ⟨"歌曲名-歌手", "downloads"⟩ ∧
    load_settings .unparsable = ⟨"歌曲名-歌手", "downloads"⟩ ∧
    (∀ dd, (load_settings (.parsed none dd)).naming_format = "歌曲名-歌手") ∧
    (∀ nf, (load_settings (.parsed nf none)).download_dir = "downloads") ∧
    (∀ nf dd, load_settings (.parsed (some nf) (some dd)) = ⟨nf, dd⟩) := by
  refine ⟨rfl, rfl, fun dd => rfl, fun nf => ?_, fun nf dd => rfl⟩
  cases nf <;> rfl

/-- C1: when the GET resolves to the sentinel URL,
`fetch_and_download_song` fails with the specific
"无法下载歌曲，请检查ID是否正确" message regardless of the status code; any
other non-200 final status fails with a message carrying that status
code. -/
theorem C1_download_sentinel_classification
    (env : DownloadEnv) (fs : FS) (song_id : Nat)
    (song_name artist download_link : Option String)
    (net : String → RequestOutcome) (r : HttpResponse)
    (h : net (requested_link song_id download_link) = RequestOutcome.success r) :
    (r.url = sentinelUrl →
      (fetch_and_download_song env fs song_id song_name artist download_link net).1 =
        (false, "无法下载歌曲，请检查ID是否正确")) ∧
    (r.url ≠ sentinelUrl → r.status ≠ 200 →
      (fetch_and_download_song env fs song_id song_name artist download_link net).1 =
        (false, "下载失败，状态码: " ++ Nat.repr r.status)) := by
  constructor
  · intro hurl
    unfold fetch_and_download_song
    rw [h]
    simp [hurl]
  · intro hurl hst
    unfold fetch_and_download_song
    rw [h]
    simp [hurl, hst]

/-- Witness for C1: a sentinel redirect with status 403 and a plain 500
response, both at concrete inputs. -/
theorem C1_witness :
    (fetch_and_download_song ⟨"歌曲名-歌手", "downloads"⟩ ⟨[], []⟩ 5 none none none
        (fun _ => .success ⟨403, sentinelUrl, [], none, none⟩)).1 =
      (false, "无法下载歌曲，请检查ID是否正确") ∧
    (fetch_and_download_song ⟨"歌曲名-歌手", "downloads"⟩ ⟨[], []⟩ 5 none none none
        (fun _ => .success ⟨500, "http://example.com/a", [], none, none⟩)).1 =
      (false, "下载失败，状态码: " ++ Nat.repr 500) :=
  ⟨(C1_download_sentinel_classification ⟨"歌曲名-歌手", "downloads"⟩ ⟨[], []⟩ 5
      none none none _ _ rfl).1 rfl,
   (C1_download_sentinel_classification ⟨"歌曲名-歌手", "downloads"⟩ ⟨[], []⟩ 5
      none none none _ _ rfl).2 (by decide) (by decide)⟩

/-- C2 as stated is false: the source's `test_download_link` checks
`status_code == 200` before the sentinel URL, so a HEAD response whose
final URL is the sentinel page but whose status is 200 is classified
valid, not unavailable. -/
theorem C2_counterexample :
    test_download_link (.success ⟨200, sentinelUrl, [], none, none⟩) =
      LinkStatus.valid "未知" "未知" ∧
    test_download_link (.success ⟨200, sentinelUrl, [], none, none⟩) ≠
      LinkStatus.unavailable := by
  constructor
  · rfl
  · decide

/-- C2 (amended): `test_download_link` classifies a 200 response as valid
with the reported size and content type regardless of the final URL; the
sentinel final URL is classified unavailable only when the status is not
200; any other non-200 status is a status failure and a raised exception
is a transport failure. -/
theorem C2_link_test_classification (r : HttpResponse) :
    (r.status = 200 →
      test_download_link (.success r) =
        LinkStatus.valid (r.contentLength.getD "未知") (r.contentType.getD "未知")) ∧
    (r.status ≠ 200 → r.url = sentinelUrl →
      test_download_link (.success r) = LinkStatus.unavailable) ∧
    (r.status ≠ 200 → r.url ≠ sentinelUrl →
      test_download_link (.success r) = LinkStatus.failedStatus r.status) ∧
    (∀ e, test_download_link (.requestException e) = LinkStatus.failedExn e) ∧
    (∀ e, test_download_link (.otherException e) = LinkStatus.failedExn e) := by
  refine ⟨?_, ?_, ?_, fun e => rfl, fun e => rfl⟩
  · intro h
    unfold test_download_link
    simp [h]
  · intro h hurl
    unfold test_download_link
    simp [h, hurl]
  · intro h hurl
    unfold test_download_link
    simp [h, hurl]

/-- Witness for the amended C2 at concrete responses. -/
theorem C2_witness :
    test_download_link (.success ⟨404, sentinelUrl, [], none, none⟩) =
      LinkStatus.unavailable ∧
    test_download_link (.success ⟨200, "http://example.com/a", [], some "123", some "audio/mpeg"⟩) =
      LinkStatus.valid "123" "audio/mpeg" :=
  ⟨(C2_link_test_classification ⟨404, sentinelUrl, [], none, none⟩).2.1
      (by decide) rfl,
   (C2_link_test_classification
      ⟨200, "http://example.com/a", [], some "123", some "audio/mpeg"⟩).1 rfl⟩

/-- Every pagination step keeps the offset and the limit non-negative. -/
theorem pageStep_nonneg (st : AppState) (op : PageOp)
    (h : 0 ≤ st.current_offset ∧ 0 ≤ st.current_limit) :
    0 ≤ (pageStep st op).current_offset ∧ 0 ≤ (pageStep st op).current_limit := by
  obtain ⟨ho, hl⟩ := h
  cases op with
  | next =>
    simp only [pageStep, click_next, next_page]
    split
    · refine ⟨?_, hl⟩
      show 0 ≤ st.current_offset + st.current_limit
      omega
    · exact ⟨ho, hl⟩
  | prev =>
    simp only [pageStep, click_prev, prev_page]
    split
    · split
      · exact ⟨ho, hl⟩
      · exact ⟨le_max_left _ _, hl⟩
    · exact ⟨ho, hl⟩
  | goto s =>
    simp only [pageStep, goto_offset]
    split
    · exact ⟨ho, hl⟩
    · split
      · exact ⟨ho, hl⟩
      · split
        · exact ⟨ho, hl⟩
        · rename_i hneg
          exact ⟨le_of_not_lt hneg, hl⟩
  | reset => exact ⟨le_refl 0, hl⟩
  | display n c =>
    simp only [pageStep, display_results]
    split
    · exact ⟨ho, hl⟩
    · exact ⟨ho, hl⟩

/-- The non-negativity invariant extends to whole operation sequences. -/
theorem run_ops_nonneg (ops : List PageOp) : ∀ st : AppState,
    0 ≤ st.current_offset ∧ 0 ≤ st.current_limit →
    0 ≤ (run_ops st ops).current_offset ∧ 0 ≤ (run_ops st ops).current_limit := by
  induction ops with
  | nil => intro st h; exact h
  | cons op ops ih =>
    intro st h
    exact ih (pageStep st op) (pageStep_nonneg st op h)

/-- C6: starting from the initial state, the offset is non-negative after
every finite sequence of pagination operations; `prev_page` at offset 0
leaves the state unchanged and issues no search; `prev_page` at a
positive offset clamps to max(0, offset - limit) and re-issues the
search there. -/
theorem C6_pagination_invariant :
    (∀ ops : List PageOp, 0 ≤ (run_ops initState ops).current_offset) ∧
    (∀ st : AppState, st.current_offset = 0 → prev_page st = (st, none)) ∧
    (∀ st : AppState, 0 < st.current_offset →
      (prev_page st).1 =
        { st with current_offset := max 0 (st.current_offset - st.current_limit) } ∧
      (prev_page st).2 =
        some ⟨st.current_keywords, max 0 (st.current_offset - st.current_limit),
          st.current_limit⟩) := by
  refine ⟨?_, ?_, ?_⟩
  · intro ops
    exact (run_ops_nonneg ops initState ⟨le_refl 0, by norm_num [initState]⟩).1
  · intro st h
    unfold prev_page
    rw [if_pos (by omega)]
  · intro st h
    unfold prev_page
    rw [if_neg (by omega)]
    exact ⟨rfl, rfl⟩

/-- Witness for C6 at concrete states: the empty sequence, a prev at
offset 0 and a prev at offset 5 with limit 20. -/
theorem C6_witness :
    0 ≤ (run_ops initState []).current_offset ∧
    prev_page initState = (initState, none) ∧
    (prev_page { initState with current_offset := 5 }).1 =
      { initState with current_offset := max 0 (5 - 20 : Int) } :=
  ⟨C6_pagination_invariant.1 [],
   C6_pagination_invariant.2.1 initState rfl,
   (C6_pagination_invariant.2.2 { initState with current_offset := 5 }
      (by norm_num [initState])).1⟩

/-- C7: `goto_offset` on an entry parsing to a negative integer shows the
validation warning, leaves the whole state unchanged and issues no
search; on a non-negative integer it sets the offset and re-issues the
search with the updated offset, keyword and limit unchanged. -/
theorem C7_goto_validation (st : AppState) (s : String) (n : Int)
    (h : pyInt? ⟨pyStrip s.data⟩ = some n) :
    (n < 0 → goto_offset st s = (st, none, true)) ∧
    (0 ≤ n →
      (goto_offset st s).1 = { st with current_offset := n } ∧
      (goto_offset st s).2.1 =
        some ⟨st.current_keywords, n, st.current_limit⟩ ∧
      (goto_offset st s).2.2 = false) := by
  have hne : pyStrip s.data ≠ [] := by
    intro he
    rw [show (⟨pyStrip s.data⟩ : String) = ⟨[]⟩ from congrArg String.mk he] at h
    exact Option.noConfusion h
  constructor
  · intro hneg
    unfold goto_offset
    rw [if_neg hne, h]
    simp [hneg]
  · intro hpos
    unfold goto_offset
    rw [if_neg hne, h]
    simp [if_neg (by omega : ¬ n < 0)]

/-- Witness for C7: entries "-5" and "12" at the initial state. -/
theorem C7_witness :
    goto_offset initState "-5" = (initState, none, true) ∧
    (goto_offset initState "12").1 = { initState with current_offset := 12 } :=
  ⟨(C7_goto_validation initState "-5" (-5) (by decide)).1 (by norm_num),
   ((C7_goto_validation initState "12" 12 (by decide)).2 (by norm_num)).1⟩

/-- C8: after a non-empty page is displayed, the next button is enabled
exactly when the page size reaches the limit; clicking a disabled next
button is a no-op that issues no search; clicking an enabled one advances
the offset by the limit and re-issues the search with the same keyword
and limit; and the spec's example scenario (search "测试", offset 0,
limit 20, 20 songs, songCount 137) behaves as stated. -/
theorem C8_next_requires_full_page :
    (∀ (st : AppState) (numSongs songCount : Nat), numSongs ≠ 0 →
      ((display_results st numSongs songCount).next_enabled = true ↔
        st.current_limit ≤ (numSongs : Int))) ∧
    (∀ st : AppState, st.next_enabled = false → click_next st = (st, none)) ∧
    (∀ st : AppState, st.next_enabled = true →
      (click_next st).1 =
        { st with current_offset := st.current_offset + st.current_limit } ∧
      (click_next st).2 =
        some ⟨st.current_keywords, st.current_offset + st.current_limit,
          st.current_limit⟩) ∧
    ((display_results { initState with current_keywords := "测试" } 20 137).next_enabled
        = true ∧
      (display_results { initState with current_keywords := "测试" } 20 137).prev_enabled
        = false ∧
      (display_results { initState with current_keywords := "测试" } 20 137).page_label
        = "偏移量: 0 | 总数: 137" ∧
      (click_next (display_results { initState with current_keywords := "测试" } 20 137)).1.current_offset
        = 20 ∧
      (click_next (display_results { initState with current_keywords := "测试" } 20 137)).2
        = some ⟨"测试", 20, 20⟩) := by
  refine ⟨?_, ?_, ?_, ?_⟩
  · intro st numSongs songCount hne
    unfold display_results
    rw [if_neg hne]
    simp
  · intro st h
    unfold click_next
    rw [if_neg (by simp [h])]
  · intro st h
    unfold click_next next_page
    rw [if_pos h]
    exact ⟨rfl, rfl⟩
  · refine ⟨by decide, by decide, by decide, by decide, by decide⟩

/-- Witness for C8 at concrete states. -/
theorem C8_witness :
    ((display_results initState 20 137).next_enabled = true ↔
      initState.current_limit ≤ ((20 : Nat) : Int)) ∧
    click_next initState = (initState, none) ∧
    (click_next { initState with next_enabled := true }).1 =
      { initState with
          next_enabled := true
          current_offset := initState.current_offset + initState.current_limit } :=
  ⟨C8_next_requires_full_page.1 initState 20 137 (by norm_num),
   C8_next_requires_full_page.2.1 initState rfl,
   (C8_next_requires_full_page.2.2.1 { initState with next_enabled := true } rfl).1⟩

/-- Closed form of the batch loop: the counters advance by the number of
successful and failed items, and the emitted trace is, in input order,
one progress update followed by one log entry per item. -/
theorem batch_loop_spec (total : Nat) (items : List (SongInfo × Bool × String)) :
    ∀ i s f : Nat,
      batch_loop total items i s f =
        (s + items.countP (fun it => it.2.1),
         f + items.countP (fun it => !it.2.1),
         (items.enumFrom (i + 1)).flatMap
           (fun p => [BatchEvent.statusUpdate p.1 total,
                      BatchEvent.logEntry (batch_log_line p.2)])) := by
  induction items with
  | nil =>
    intro i s f
    simp [batch_loop]
  | cons item rest ih =>
    intro i s f
    by_cases hb : item.2.1 = true
    · simp [batch_loop, hb, ih, List.countP_cons]
      omega
    · have hb' : item.2.1 = false := by simpa using hb
      simp [batch_loop, hb', ih, List.countP_cons]
      omega

/-- Projecting the log entries out of the per-item part of the trace
recovers exactly one line per item, in order. -/
theorem trace_logs (total : Nat) (items : List (SongInfo × Bool × String)) :
    ∀ i : Nat,
      ((items.enumFrom i).flatMap
          (fun p => [BatchEvent.statusUpdate p.1 total,
                     BatchEvent.logEntry (batch_log_line p.2)])).filterMap
        (fun e => match e with | BatchEvent.logEntry l => some l | _ => none) =
      items.map batch_log_line := by
  induction items with
  | nil => intro i; rfl
  | cons item rest ih =>
    intro i
    simp [ih (i + 1)]

/-- C3: the batch download visits every track in input order, emitting a
progress update before each attempt and exactly one log line per track
plus the closing summary; failures do not abort the batch; and the final
counters report successCount = N - K and failCount = K where K is the
number of failed items. -/
theorem C3_batch_sequential_accounting (items : List (SongInfo × Bool × String)) :
    (do_batch_download items).success_count =
        items.length - items.countP (fun it => !it.2.1) ∧
    (do_batch_download items).fail_count = items.countP (fun it => !it.2.1) ∧
    (do_batch_download items).success_count + (do_batch_download items).fail_count =
        items.length ∧
    (do_batch_download items).events =
      BatchEvent.statusUpdate 0 items.length ::
        ((items.enumFrom 1).flatMap
          (fun p => [BatchEvent.statusUpdate p.1 items.length,
                     BatchEvent.logEntry (batch_log_line p.2)])) ++
        [BatchEvent.finalStatus (do_batch_download items).success_count
            (do_batch_download items).fail_count,
         BatchEvent.logEntry (batch_summary_line items.length
            (do_batch_download items).success_count (do_batch_download items).fail_count),
         if (do_batch_download items).fail_count = 0 then BatchEvent.dialogInfo
         else BatchEvent.dialogWarning] ∧
    (do_batch_download items).events.filterMap
        (fun e => match e with | BatchEvent.logEntry l => some l | _ => none) =
      items.map batch_log_line ++
        [batch_summary_line items.length (do_batch_download items).success_count
          (do_batch_download items).fail_count] := by
  have hsum : items.countP (fun it => it.2.1) + items.countP (fun it => !it.2.1) =
      items.length := by
    induction items with
    | nil => rfl
    | cons a l ih =>
      by_cases hb : a.2.1 = true
      · simp [List.countP_cons, hb]
        omega
      · have hb' : a.2.1 = false := by simpa using hb
        simp [List.countP_cons, hb']
        omega
  have hsc : (do_batch_download items).success_count =
      items.countP (fun it => it.2.1) := by
    simp [do_batch_download, batch_loop_spec]
  have hfc : (do_batch_download items).fail_count =
      items.countP (fun it => !it.2.1) := by
    simp [do_batch_download, batch_loop_spec]
  have hev : (do_batch_download items).events =
      BatchEvent.statusUpdate 0 items.length ::
        ((items.enumFrom 1).flatMap
          (fun p => [BatchEvent.statusUpdate p.1 items.length,
                     BatchEvent.logEntry (batch_log_line p.2)])) ++
        [BatchEvent.finalStatus (do_batch_download items).success_count
            (do_batch_download items).fail_count,
         BatchEvent.logEntry (batch_summary_line items.length
            (do_batch_download items).success_count (do_batch_download items).fail_count),
         if (do_batch_download items).fail_count = 0 then BatchEvent.dialogInfo
         else BatchEvent.dialogWarning] := by
    rw [hsc, hfc]
    have hbl := batch_loop_spec items.length items 0 0 0
    have h21 : (batch_loop items.length items 0 0 0).2.1 =
        items.countP (fun it => !it.2.1) := by
      simp [hbl]
    simp [do_batch_download, hbl, h21]
    exact if_congr (by rw [h21]) rfl rfl
  refine ⟨by omega, hfc, by omega, hev, ?_⟩
  rw [hev]
  simp only [List.filterMap_append, List.filterMap_cons, trace_logs]
  by_cases hf : (do_batch_download items).fail_count = 0 <;> simp [hf]

/-- Replaying a batch trace appends to the download log exactly the
timestamped versions of the trace's log entries, in order, leaving the
previously present lines untouched. -/
theorem apply_batch_events_log (ts : String) : ∀ (evs : List BatchEvent) (st : AppState),
    (apply_batch_events ts st evs).download_log =
      st.download_log ++
        evs.filterMap (fun e =>
          match e with
          | BatchEvent.logEntry l => some ("[" ++ ts ++ "] " ++ l)
          | _ => none) := by
  intro evs
  induction evs with
  | nil =>
    intro st
    simp [apply_batch_events]
  | cons e evs ih =>
    intro st
    cases e with
    | statusUpdate i t =>
      simp only [apply_batch_events, List.foldl_cons] at ih ⊢
      rw [ih]
      simp [List.filterMap_cons]
    | logEntry line =>
      simp only [apply_batch_events, List.foldl_cons] at ih ⊢
      rw [ih]
      simp [add_download_log, List.filterMap_cons]
    | finalStatus su fa =>
      simp only [apply_batch_events, List.foldl_cons] at ih ⊢
      rw [ih]
      simp [List.filterMap_cons]
    | dialogInfo =>
      simp only [apply_batch_events, List.foldl_cons] at ih ⊢
      rw [ih]
      simp [List.filterMap_cons]
    | dialogWarning =>
      simp only [apply_batch_events, List.foldl_cons] at ih ⊢
      rw [ih]
      simp [List.filterMap_cons]

/-- C10 as stated is false: the download log is not immune to every
operation — `reset_search` clears it, removing entries previously
appended by a download. -/
theorem C10_counterexample :
    ("[" ++ "t0" ++ "] " ++ "m") ∈
      (add_download_log "t0" "m" initState).download_log ∧
    ("[" ++ "t0" ++ "] " ++ "m") ∉
      (reset_search (add_download_log "t0" "m" initState)).download_log := by
  decide

/-- C10 (amended): the core download operations only append — a single
download appends exactly one timestamped "[ts] message" line, a batch
appends exactly its trace's log lines timestamped and in order, and
neither alters or removes pre-existing entries; the reset operation,
however, clears the download log entirely. -/
theorem C10_download_log_append_only :
    (∀ ts msg st, (add_download_log ts msg st).download_log =
      st.download_log ++ ["[" ++ ts ++ "] " ++ msg]) ∧
    (∀ ts st song_name artist outcome,
      ∃ line, (do_download_log ts st song_name artist outcome).download_log =
        st.download_log ++ ["[" ++ ts ++ "] " ++ line]) ∧
    (∀ ts st items, (run_batch ts st items).download_log =
      st.download_log ++
        (do_batch_download items).events.filterMap (fun e =>
          match e with
          | BatchEvent.logEntry l => some ("[" ++ ts ++ "] " ++ l)
          | _ => none)) ∧
    (∀ st, (reset_search st).download_log = []) := by
  refine ⟨fun ts msg st => rfl, ?_, ?_, fun st => rfl⟩
  · intro ts st song_name artist outcome
    by_cases ho : outcome.1 = true
    · exact ⟨"✅ 下载成功: " ++ song_name ++ " - " ++ artist, by
        simp [do_download_log, ho, add_download_log]⟩
    · exact ⟨"❌ 下载失败: " ++ song_name ++ " - " ++ outcome.2, by
        simp [do_download_log, ho, add_download_log]⟩
  · intro ts st items
    exact apply_batch_events_log ts (do_batch_download items).events st

/-- The decoder inverts `Nat.digitChar` on single digits. -/
theorem decDigit_digitChar : ∀ m : Nat, m < 10 → decDigit (Nat.digitChar m) = m := by
  decide

/-- The decoder inverts the core digit-printing loop (for any fuel that
dominates the argument, as `Nat.toDigits` arranges). -/
theorem evalDigits_toDigitsCore :
    ∀ (fuel n : Nat) (acc : List Char), n < fuel →
      evalDigits 0 (Nat.toDigitsCore 10 fuel n acc) = evalDigits n acc := by
  intro fuel
  induction fuel with
  | zero =>
    intro n acc h
    exact absurd h (Nat.not_lt_zero n)
  | succ f ih =>
    intro n acc h
    by_cases h10 : n / 10 = 0
    · have hn : n < 10 := by omega
      simp only [Nat.toDigitsCore, h10, if_pos]
      simp only [evalDigits, List.foldl_cons]
      rw [decDigit_digitChar _ (by omega)]
      congr 1
      omega
    · simp only [Nat.toDigitsCore, h10, if_neg, if_false]
      rw [ih (n / 10) _ (by omega)]
      simp only [evalDigits, List.foldl_cons]
      rw [decDigit_digitChar _ (by omega)]
      congr 1
      omega

/-- The decoder inverts `Nat.repr`. -/
theorem evalDigits_repr (n : Nat) : evalDigits 0 (Nat.repr n).data = n :=
  evalDigits_toDigitsCore (n + 1) n [] (Nat.lt_succ_self n)

/-- Distinct naturals print as distinct decimal strings. -/
theorem repr_injective : Function.Injective Nat.repr := by
  intro a b h
  have ha := evalDigits_repr a
  rw [h, evalDigits_repr] at ha
  exact ha.symm

/-- For a fixed directory, base and extension, distinct counters yield
distinct disambiguated paths. -/
theorem candidate_injective (dir base ext : String) :
    Function.Injective (fun k => joinPath dir (numbered_candidate base ext k)) := by
  intro j k h
  simp only [joinPath, numbered_candidate] at h
  have h2 := congrArg String.data h
  simp only [String.data_append, List.append_assoc] at h2
  have h3 := List.append_cancel_left h2
  have h4 := List.append_cancel_left h3
  have h5 := List.append_cancel_left h4
  have h6 := List.append_cancel_left h5
  have h7 := List.append_cancel_right h6
  exact repr_injective (String.ext h7)

/-- Pigeonhole: among the first `files.length + 1` counters, some
disambiguated path does not exist yet. -/
theorem exists_free_candidate (files : List String) (g : Nat → String)
    (hg : Function.Injective g) :
    ∃ k, 1 ≤ k ∧ k ≤ files.length + 1 ∧ g k ∉ files := by
  by_contra hc
  push_neg at hc
  have hsub : (Finset.Icc 1 (files.length + 1)).image g ⊆ files.toFinset := by
    intro x hx
    rw [Finset.mem_image] at hx
    obtain ⟨k, hk, rfl⟩ := hx
    rw [Finset.mem_Icc] at hk
    rw [List.mem_toFinset]
    exact hc k hk.1 hk.2
  have hcard := Finset.card_le_card hsub
  rw [Finset.card_image_of_injective _ hg, Nat.card_Icc] at hcard
  have hfin := List.toFinset_card_le files
  omega

/-- The collision loop leaves a non-existing candidate untouched. -/
theorem resolve_loop_free (files : List String) (dir base ext : String)
    (fuel counter : Nat) (cur : String) (h : cur ∉ files) :
    resolve_collision_loop files dir base ext fuel counter cur = cur := by
  cases fuel with
  | zero => rfl
  | succ f => simp [resolve_collision_loop, h]

/-- On an existing candidate, the collision loop returns the first free
disambiguated path at or after the current counter, provided one exists
within the fuel window. -/
theorem resolve_loop_spec (files : List String) (dir base ext : String) :
    ∀ (fuel counter : Nat) (cur : String), cur ∈ files →
      (∃ j, counter ≤ j ∧ j < counter + fuel ∧
        joinPath dir (numbered_candidate base ext j) ∉ files) →
      ∃ k, counter ≤ k ∧
        resolve_collision_loop files dir base ext fuel counter cur =
          joinPath dir (numbered_candidate base ext k) ∧
        joinPath dir (numbered_candidate base ext k) ∉ files ∧
        ∀ j, counter ≤ j → j < k →
          joinPath dir (numbered_candidate base ext j) ∈ files := by
  intro fuel
  induction fuel with
  | zero =>
    intro counter cur _ hex
    obtain ⟨j, hj1, hj2, _⟩ := hex
    omega
  | succ f ih =>
    intro counter cur hcur hex
    have hstep : resolve_collision_loop files dir base ext (f + 1) counter cur =
        resolve_collision_loop files dir base ext f (counter + 1)
          (joinPath dir (numbered_candidate base ext counter)) := by
      simp [resolve_collision_loop, hcur]
    by_cases hcand : joinPath dir (numbered_candidate base ext counter) ∈ files
    · obtain ⟨j, hj1, hj2, hj3⟩ := hex
      have hjne : j ≠ counter := by
        intro he
        rw [he] at hj3
        exact hj3 hcand
      obtain ⟨k, hk1, hk2, hk3, hk4⟩ :=
        ih (counter + 1) (joinPath dir (numbered_candidate base ext counter)) hcand
          ⟨j, by omega, by omega, hj3⟩
      refine ⟨k, by omega, ?_, hk3, ?_⟩
      · rw [hstep]
        exact hk2
      · intro j2 hj21 hj22
        rcases Nat.lt_or_ge j2 (counter + 1) with hlt | hge
        · have he2 : j2 = counter := by omega
          rw [he2]
          exact hcand
        · exact hk4 j2 hge hj22
    · refine ⟨counter, le_refl _, ?_, hcand, ?_⟩
      · rw [hstep]
        exact resolve_loop_free files dir base ext f (counter + 1) _ hcand
      · intro j hj1 hj2
        omega

/-- If the unsuffixed candidate does not exist, it is returned as is. -/
theorem resolve_path_not_exists (files : List String) (dir fn : String)
    (h : joinPath dir fn ∉ files) :
    resolve_download_path files dir fn = joinPath dir fn := by
  unfold resolve_download_path
  exact resolve_loop_free files dir (splitext fn).1 (splitext fn).2
    (files.length + 1) 1 (joinPath dir fn) h

/-- If the unsuffixed candidate exists, the first free numbered variant
(counting from 1) is returned. -/
theorem resolve_path_exists (files : List String) (dir fn : String)
    (h : joinPath dir fn ∈ files) :
    ∃ k, 1 ≤ k ∧
      resolve_download_path files dir fn =
        joinPath dir (numbered_candidate (splitext fn).1 (splitext fn).2 k) ∧
      joinPath dir (numbered_candidate (splitext fn).1 (splitext fn).2 k) ∉ files ∧
      ∀ j, 1 ≤ j → j < k →
        joinPath dir (numbered_candidate (splitext fn).1 (splitext fn).2 j) ∈ files := by
  unfold resolve_download_path
  apply resolve_loop_spec files dir (splitext fn).1 (splitext fn).2
    (files.length + 1) 1 (joinPath dir fn) h
  obtain ⟨k, hk1, hk2, hk3⟩ :=
    exists_free_candidate files _ (candidate_injective dir (splitext fn).1 (splitext fn).2)
  exact ⟨k, hk1, by omega, hk3⟩

/-- The resolved path never collides with an existing file. -/
theorem resolve_path_not_mem (files : List String) (dir fn : String) :
    resolve_download_path files dir fn ∉ files := by
  by_cases h : joinPath dir fn ∈ files
  · obtain ⟨k, _, heq, hfree, _⟩ := resolve_path_exists files dir fn h
    rw [heq]
    exact hfree
  · rw [resolve_path_not_exists files dir fn h]
    exact h

/-- Repeated resolve-then-write rounds yield pairwise distinct paths,
none colliding with a pre-existing file. -/
theorem iterate_resolutions_spec (dir fn : String) :
    ∀ (N : Nat) (files : List String),
      (iterate_resolutions dir fn files N).Nodup ∧
      ∀ p ∈ iterate_resolutions dir fn files N, p ∉ files := by
  intro N
  induction N with
  | zero =>
    intro files
    exact ⟨List.nodup_nil, by simp [iterate_resolutions]⟩
  | succ n ih =>
    intro files
    obtain ⟨hnd, hmem⟩ := ih (resolve_download_path files dir fn :: files)
    constructor
    · show (resolve_download_path files dir fn ::
        iterate_resolutions dir fn (resolve_download_path files dir fn :: files) n).Nodup
      rw [List.nodup_cons]
      refine ⟨?_, hnd⟩
      intro hp
      exact hmem _ hp (List.mem_cons_self _ _)
    · intro p hp
      rw [show iterate_resolutions dir fn files (n + 1) =
          resolve_download_path files dir fn ::
            iterate_resolutions dir fn (resolve_download_path files dir fn :: files) n
          from rfl, List.mem_cons] at hp
      rcases hp with rfl | hp
      · exact resolve_path_not_mem files dir fn
      · intro hpf
        exact hmem p hp (List.mem_cons_of_mem _ hpf)

/-- `ensure_dir` never touches the files. -/
theorem ensure_dir_files (fs : FS) (d : String) : (ensure_dir fs d).files = fs.files := by
  unfold ensure_dir
  split <;> rfl

/-- After `ensure_dir` the directory exists. -/
theorem ensure_dir_mem (fs : FS) (d : String) : d ∈ (ensure_dir fs d).dirs := by
  unfold ensure_dir
  split
  · assumption
  · exact List.mem_cons_self _ _

/-- C4: download path resolution returns the unsuffixed candidate when it
does not exist, and otherwise the first "{base} (k){ext}" (k = 1, 2, ...)
that does not exist; the result never collides with an existing file; N
consecutive resolutions (each writing its file) produce pairwise distinct
paths none of which collide with a pre-existing file; and on a successful
download the target directory has been created and the written path is
fresh. -/
theorem C4_path_resolution :
    (∀ (files : List String) (dir fn : String),
      joinPath dir fn ∉ files → resolve_download_path files dir fn = joinPath dir fn) ∧
    (∀ (files : List String) (dir fn : String),
      joinPath dir fn ∈ files →
      ∃ k, 1 ≤ k ∧
        resolve_download_path files dir fn =
          joinPath dir (numbered_candidate (splitext fn).1 (splitext fn).2 k) ∧
        joinPath dir (numbered_candidate (splitext fn).1 (splitext fn).2 k) ∉ files ∧
        ∀ j, 1 ≤ j → j < k →
          joinPath dir (numbered_candidate (splitext fn).1 (splitext fn).2 j) ∈ files) ∧
    (∀ (files : List String) (dir fn : String),
      resolve_download_path files dir fn ∉ files) ∧
    (∀ (dir fn : String) (files : List String) (N : Nat),
      (iterate_resolutions dir fn files N).Nodup ∧
      ∀ p ∈ iterate_resolutions dir fn files N, p ∉ files) ∧
    (∀ (env : DownloadEnv) (fs : FS) (song_id : Nat)
      (song_name artist download_link : Option String)
      (net : String → RequestOutcome) (r : HttpResponse),
      net (requested_link song_id download_link) = RequestOutcome.success r →
      r.url ≠ sentinelUrl → r.status = 200 →
      env.download_dir ∈
        ((fetch_and_download_song env fs song_id song_name artist download_link net).2).dirs ∧
      (fetch_and_download_song env fs song_id song_name artist download_link net).1.1 =
        true ∧
      (fetch_and_download_song env fs song_id song_name artist download_link net).1.2 ∉
        fs.files) := by
  refine ⟨resolve_path_not_exists, resolve_path_exists, resolve_path_not_mem,
    fun dir fn files N => iterate_resolutions_spec dir fn N files, ?_⟩
  intro env fs song_id song_name artist download_link net r hnet hurl hst
  unfold fetch_and_download_song
  rw [hnet]
  simp only [if_neg hurl, if_neg (show ¬ r.status ≠ 200 by omega)]
  refine ⟨ensure_dir_mem fs env.download_dir, trivial, ?_⟩
  rw [ensure_dir_files]
  exact resolve_path_not_mem fs.files env.download_dir _

/-- Witness for C4 at a concrete directory layout and a concrete
successful download. -/
theorem C4_witness :
    resolve_download_path ["d/a.mp3"] "d" "b.mp3" = joinPath "d" "b.mp3" ∧
    ("downloads" ∈
      ((fetch_and_download_song ⟨"歌曲名-歌手", "downloads"⟩ ⟨[], []⟩ 5 none none none
        (fun _ => .success ⟨200, "http://example.com/a", [], none, none⟩)).2).dirs ∧
      (fetch_and_download_song ⟨"歌曲名-歌手", "downloads"⟩ ⟨[], []⟩ 5 none none none
        (fun _ => .success ⟨200, "http://example.com/a", [], none, none⟩)).1.1 = true ∧
      (fetch_and_download_song ⟨"歌曲名-歌手", "downloads"⟩ ⟨[], []⟩ 5 none none none
        (fun _ => .success ⟨200, "http://example.com/a", [], none, none⟩)).1.2 ∉
        (⟨[], []⟩ : FS).files) :=
  ⟨C4_path_resolution.1 ["d/a.mp3"] "d" "b.mp3" (by decide),
   C4_path_resolution.2.2.2.2 ⟨"歌曲名-歌手", "downloads"⟩ ⟨[], []⟩ 5 none none none
     (fun _ => .success ⟨200, "http://example.com/a", [], none, none⟩)
     ⟨200, "http://example.com/a", [], none, none⟩ rfl (by decide) rfl⟩

end NSD
